import Mathlib

/-! Verification of the librist logging module (src/log.c), the ristreceiver
tool (tools/ristreceiver.c) and the librist API contract (librist.h) against
the natural-language specification of the library. Machine integers are
modelled as `Nat`/`Int` with explicit `% 2 ^ w` where overflow matters. -/

namespace Rist

/-! ## Constants from librist.h -/

def RIST_LOG_QUIET : Int := -1

def RIST_LOG_INFO : Int := 0

def RIST_LOG_ERROR : Int := 1

def RIST_LOG_WARN : Int := 2

def RIST_LOG_DEBUG : Int := 3

def RIST_LOG_SIMULATE : Int := 4

inductive rist_profile where
  | simple
  | main
  | advanced
deriving DecidableEq, Repr

/-- The payload of `struct rist_data_block` (librist.h). The `payload` pointer
and `payload_len` are modelled as a byte list plus the separately stored
length field; the opaque `peer` pointer is omitted. -/
structure rist_data_block where
  payload : List Nat
  payload_len : Nat
  ts_ntp : Nat
  virt_src_port : Nat
  virt_dst_port : Nat
  flow_id : Nat
  seq : Nat
  flags : Nat
deriving DecidableEq, Repr

/-! ## src/log.c

The three `static` module variables of log.c, gathered in one record. They
are process-wide globals in the C source: `msg` receives `server_ctx` and
`client_ctx` only as values to print, not as a lookup key for this state. -/

structure LogState where
  loglevel : Int
  stats_fd : Int
  stats_socket : Int
deriving DecidableEq, Repr

/-- Initial values of the statics of log.c in the unix build
(`STDERR_FILENO` = 2). -/
def initial_log_state : LogState :=
  { loglevel := RIST_LOG_WARN, stats_fd := 2, stats_socket := 0 }

def set_loglevel (level : Int) (st : LogState) : LogState :=
  { st with loglevel := level }

/-- `rist_set_stats_fd` (log.c): replaces the fd when `fd > -1`, always
returns 0. The informational fprintf to stderr is not part of the state. -/
def rist_set_stats_fd (fd : Int) (st : LogState) : Int × LogState :=
  if fd > -1 then (0, { st with stats_fd := fd }) else (0, st)

/-- `rist_set_stats_socket` (log.c). The result of the external primitive
`udp_Connect("127.0.0.1", port, -1, 0, NULL)` is passed in as
`connect_result` (sockets are out of scope collaborators). -/
def rist_set_stats_socket (port : Int) (connect_result : Int) (st : LogState) :
    Int × LogState :=
  if port = 0 then (-1, st)
  else if st.stats_socket = 0 then (0, { st with stats_socket := connect_result })
  else (0, st)

structure timeval where
  tv_sec : Nat
  tv_usec : Nat
deriving DecidableEq, Repr

inductive LogWrite where
  | toFd (fd : Int) (str : String) (len : Nat)
  | toSocket (sock : Int) (str : String) (len : Nat)
deriving DecidableEq, Repr

def pad6 (n : Nat) : String :=
  let s := toString n
  String.mk (List.replicate (6 - s.length) '0') ++ s

/-- The `"%d.%6.6d|%ld.%ld|%d|%s"` format string of `msg`; `content` is the
already formatted `vasprintf` result of the variadic arguments. -/
def format_udp (tv : timeval) (server_ctx client_ctx level : Int)
    (content : String) : String :=
  toString tv.tv_sec ++ "." ++ pad6 tv.tv_usec ++ "|" ++ toString server_ctx ++
    "." ++ toString client_ctx ++ "|" ++ toString level ++ "|" ++ content

/-- `msg` (log.c, unix build): drops the message when `level > loglevel`,
otherwise writes `udplen + 1` bytes to `stats_fd` and, when a stats socket
is open, `udplen` bytes to it. Returns the performed writes and the (never
modified) module state. -/
def msg (st : LogState) (server_ctx client_ctx : Int) (level : Int)
    (tv : timeval) (content : String) : List LogWrite × LogState :=
  if level > st.loglevel then ([], st)
  else
    let str_udp := format_udp tv server_ctx client_ctx level content
    let udplen := str_udp.length
    (LogWrite.toFd st.stats_fd str_udp (udplen + 1) ::
      (if st.stats_socket > 0 then [LogWrite.toSocket st.stats_socket str_udp udplen]
       else []),
     st)

/-! ## tools/ristreceiver.c -/

def MAX_OUTPUT_COUNT : Nat := 10

/-- The two url parameters of a udp/rtp output plus the rtp options carried by
`struct rist_udp_config` that cb_recv consults. -/
structure rist_udp_config where
  stream_id : Nat
  rtp : Bool
  rtp_ptype : Nat
  rtp_sequence : Bool
deriving DecidableEq, Repr

/-- `struct rist_callback_object`: the per-output sockets, parsed udp configs
(NULL when the output was not opened) and the local rtp sequence counters. -/
structure rist_callback_object where
  mpeg : Fin MAX_OUTPUT_COUNT → Int
  udp_config : Fin MAX_OUTPUT_COUNT → Option rist_udp_config
  i_seqnum : Fin MAX_OUTPUT_COUNT → Nat

/-- `risttools_rtp_set_hdr` (ristreceiver.c): the 12 header bytes it stores.
Each C store is to a `uint8_t`; `i_seqnum` is a `uint16_t` so `i_seqnum >> 8`
is truncated to a byte by the store. -/
def risttools_rtp_set_hdr (i_type i_seqnum i_timestamp i_ssrc : Nat) : List Nat :=
  [0x80,
   i_type &&& 0x7f,
   (i_seqnum >>> 8) % 256,
   i_seqnum &&& 0xff,
   (i_timestamp >>> 24) &&& 0xff,
   (i_timestamp >>> 16) &&& 0xff,
   (i_timestamp >>> 8) &&& 0xff,
   i_timestamp &&& 0xff,
   (i_ssrc >>> 24) &&& 0xff,
   (i_ssrc >>> 16) &&& 0xff,
   (i_ssrc >>> 8) &&& 0xff,
   i_ssrc &&& 0xff]

/-- `risttools_convertNTPtoRTP`: 64-bit multiply by 90000, shift right 32,
truncate to `uint32_t` (a no-op after the shift). -/
def risttools_convertNTPtoRTP (i_ntp : Nat) : Nat :=
  ((i_ntp * 90000) % 2 ^ 64) >>> 32

/-- The output-matching test of cb_recv (ristreceiver.c line 135):
`profile == RIST_PROFILE_SIMPLE || virt_dst_port == 0 ||
virt_dst_port == b->virt_dst_port`, where `virt_dst_port` is the output's
`stream_id`. -/
def output_match (profile : rist_profile) (udp_config : rist_udp_config)
    (b : rist_data_block) : Bool :=
  decide (profile = rist_profile.simple) || decide (udp_config.stream_id = 0) ||
    decide (udp_config.stream_id = b.virt_dst_port)

/-- Whether cb_recv forwards block `b` to output slot `i`: the slot has a
parsed udp config, the match test passes and the socket is open
(`mpeg[i] > 0`). -/
def cb_recv_sends (profile : rist_profile) (co : rist_callback_object)
    (b : rist_data_block) (i : Fin MAX_OUTPUT_COUNT) : Bool :=
  match co.udp_config i with
  | none => false
  | some cfg => output_match profile cfg b && decide (0 < co.mpeg i)

/-- The bytes cb_recv sends on an rtp-enabled output: the 12-byte RTP header
written in front of the copied payload. `cur_seqnum` is the current value of
`callback_object->i_seqnum[i]` (a `uint16_t`). -/
def cb_recv_rtp_packet (cfg : rist_udp_config) (cur_seqnum : Nat)
    (b : rist_data_block) : List Nat :=
  let i_seqnum := if cfg.rtp_sequence then b.seq % 2 ^ 16 else cur_seqnum
  let i_timestamp := risttools_convertNTPtoRTP b.ts_ntp
  let ptype : Nat := if cfg.rtp_ptype ≠ 0 then cfg.rtp_ptype else 0x21
  risttools_rtp_set_hdr ptype i_seqnum i_timestamp b.flow_id ++ b.payload

/-- main() registers the out-of-band callback only when the profile is not
simple (ristreceiver.c line 387). -/
def oob_enabled (profile : rist_profile) : Bool :=
  decide (profile ≠ rist_profile.simple)

/-! ### Cumulative statistics of the tool -/

inductive rist_stats_type where
  | senderPeer
  | receiverFlow
deriving DecidableEq, Repr

/-- The fields of `struct rist_stats` that cb_stats consults: the container
type and the interval counters of `stats.receiver_flow`. -/
structure rist_stats where
  stats_type : rist_stats_type
  flow_id : Nat
  received : Nat
  recovered : Nat
  lost : Nat
deriving DecidableEq, Repr

/-- `struct ristreceiver_flow_cumulative_stats`; the intrusive `next` pointer
becomes the list structure itself. The three counters are `uint64_t` in the
source; they are modelled as `Nat` kept below `2 ^ 64` by the wrapping
arithmetic of the update. -/
structure ristreceiver_flow_cumulative_stats where
  flow_id : Nat
  received : Nat
  recovered : Nat
  lost : Nat
deriving DecidableEq, Repr

/-- The list walk of cb_stats: find the first node with this flow_id and add
the interval counters to it; when no node matches, append a calloc-zeroed
node at the tail (`*prev = stats`) and add the counters to it. The `+=` on
the `uint64_t` fields wraps modulo `2 ^ 64`. -/
def cb_stats_update (l : List ristreceiver_flow_cumulative_stats)
    (fid received recovered lost : Nat) :
    List ristreceiver_flow_cumulative_stats :=
  match l with
  | [] => [{ flow_id := fid, received := received % 2 ^ 64,
             recovered := recovered % 2 ^ 64, lost := lost % 2 ^ 64 }]
  | n :: rest =>
    if n.flow_id = fid then
      { n with received := (n.received + received) % 2 ^ 64,
               recovered := (n.recovered + recovered) % 2 ^ 64,
               lost := (n.lost + lost) % 2 ^ 64 } :: rest
    else
      n :: cb_stats_update rest fid received recovered lost

/-- `cb_stats` effect on `stats_list`: only `RIST_STATS_RECEIVER_FLOW`
containers touch the cumulative list. -/
def cb_stats (l : List ristreceiver_flow_cumulative_stats) (c : rist_stats) :
    List ristreceiver_flow_cumulative_stats :=
  if c.stats_type = rist_stats_type.receiverFlow then
    cb_stats_update l c.flow_id c.received c.recovered c.lost
  else l

/-- `stats_list` after a sequence of stats callbacks, starting from the empty
initial list. -/
def stats_list_after (cs : List rist_stats) :
    List ristreceiver_flow_cumulative_stats :=
  cs.foldl cb_stats []

/-- The node of the cumulative list holding a given flow_id (first match, as
the C while loop finds it). -/
def lookup_flow (l : List ristreceiver_flow_cumulative_stats) (fid : Nat) :
    Option ristreceiver_flow_cumulative_stats :=
  l.find? (fun n => n.flow_id == fid)

/-- Sum of one interval counter over all receiver-flow containers reported
for a given flow_id. -/
def interval_sum (f : rist_stats → Nat) (cs : List rist_stats) (fid : Nat) :
    Nat :=
  ((cs.filter (fun c =>
      decide (c.stats_type = rist_stats_type.receiverFlow ∧ c.flow_id = fid))).map
    f).sum

/-! ## API contract of librist.h

librist.h only declares the sender/receiver entry points; their
implementations are not among the sources. The definitions below are
therefore modelled from the spec, as their doc comments state. -/

inductive StartResult where
  | ok
  | invalidConfig
  | alreadyStarted
deriving DecidableEq, Repr

inductive DataReadResult where
  | ok (data_block : rist_data_block)
  | timedOut
  | notStarted
deriving DecidableEq, Repr

/-- Modelled from the spec: the sender context behind `struct rist_sender`,
whose implementation is not among the sources (librist.h only declares it).
It carries the flow identity, the per-flow `next_seq` cursor, the started
flag and an abstract validity bit for the accumulated configuration. -/
structure rist_sender where
  profile : rist_profile
  flow_id : Nat
  log_level : Int
  next_seq : Nat
  started : Bool
  config_valid : Bool
deriving DecidableEq, Repr

/-- Modelled from the spec: `rist_sender_create` is only declared in
librist.h. Per the spec, `flow_id = 0` means "assign one": the library
generates the flow id itself; `generated_flow_id` stands for that
internally generated value. -/
def rist_sender_create (profile : rist_profile) (flow_id : Nat)
    (log_level : Int) (generated_flow_id : Nat) : rist_sender :=
  { profile := profile,
    flow_id := if flow_id = 0 then generated_flow_id else flow_id,
    log_level := log_level,
    next_seq := 0,
    started := false,
    config_valid := true }

/-- Modelled from the spec: `rist_sender_flow_id_get` is only declared in
librist.h; it stores the current flow_id through the out parameter and
returns 0. Modelled as returning the pair (return code, *flow_id). -/
def rist_sender_flow_id_get (ctx : rist_sender) : Int × Nat :=
  (0, ctx.flow_id)

/-- Modelled from the spec: `rist_sender_start` is only declared in
librist.h. Per the spec, "start returns one of {ok, InvalidConfig,
AlreadyStarted}" and "Configuration errors are returned synchronously from
the create/start call and leave no side effects." -/
def rist_sender_start (ctx : rist_sender) : StartResult × rist_sender :=
  if ¬ ctx.config_valid then (StartResult.invalidConfig, ctx)
  else if ctx.started then (StartResult.alreadyStarted, ctx)
  else (StartResult.ok, { ctx with started := true })

/-- Modelled from the spec: `rist_sender_data_write` is only declared in
librist.h. Per the spec, "enqueue(data_block) — stamps sequence =
next_seq++, fills flow_id/timestamps if zero" and the sequence space is
32-bit modular; `now_ntp` is the capture-time NTP clock the framer stamps.
Returns (bytes written, the stamped block, the new context). -/
def rist_sender_data_write (ctx : rist_sender) (b : rist_data_block)
    (now_ntp : Nat) : Nat × rist_data_block × rist_sender :=
  let stamped :=
    { b with
      seq := ctx.next_seq,
      flow_id := if b.flow_id = 0 then ctx.flow_id else b.flow_id,
      ts_ntp := if b.ts_ntp = 0 then now_ntp else b.ts_ntp }
  (b.payload_len, stamped, { ctx with next_seq := (ctx.next_seq + 1) % 2 ^ 32 })

/-- Modelled from the spec: the receiver context behind
`struct rist_receiver`, whose implementation is not among the sources. It
carries the started flag, an abstract configuration-validity bit and the
application-facing fifo, which by construction holds only whole data
blocks. -/
structure rist_receiver where
  profile : rist_profile
  started : Bool
  config_valid : Bool
  fifo : List rist_data_block
deriving DecidableEq, Repr

/-- Modelled from the spec: `rist_receiver_start` is only declared in
librist.h; same contract as `rist_sender_start`. -/
def rist_receiver_start (ctx : rist_receiver) : StartResult × rist_receiver :=
  if ¬ ctx.config_valid then (StartResult.invalidConfig, ctx)
  else if ctx.started then (StartResult.alreadyStarted, ctx)
  else (StartResult.ok, { ctx with started := true })

/-- Modelled from the spec: `rist_receiver_data_read` is only declared in
librist.h. Per the spec, "read returns {ok, TimedOut, NotStarted}" and
"`data_read` with timeout returns `TimedOut` on expiry; no partial blocks
are ever returned": a read pops the head of the fifo whole, or reports
TimedOut when the timeout expires with the fifo still empty. -/
def rist_receiver_data_read (ctx : rist_receiver) (timeout : Nat) :
    DataReadResult × rist_receiver :=
  if ¬ ctx.started then (DataReadResult.notStarted, ctx)
  else
    match ctx.fifo with
    | [] => (DataReadResult.timedOut, ctx)
    | b :: rest => (DataReadResult.ok b, { ctx with fifo := rest })

/-! ## Theorems -/

/-- C1 counterexample: the logging state of log.c is a process-wide static,
not per-context. Calling `set_loglevel(RIST_LOG_QUIET)` on behalf of one
context (here 7.7) changes the log-level filtering `msg` applies when
invoked for a different context (9.9): before the call msg for 9.9 at level
INFO writes output, afterwards it writes nothing. -/
theorem c1_counterexample :
    (msg initial_log_state 9 9 RIST_LOG_INFO ⟨0, 0⟩ "x").1 ≠ [] ∧
    (msg (set_loglevel RIST_LOG_QUIET initial_log_state) 9 9 RIST_LOG_INFO
        ⟨0, 0⟩ "x").1 = [] := by
  constructor
  · simp [msg, initial_log_state, RIST_LOG_INFO, RIST_LOG_WARN]
  · simp [msg, set_loglevel, initial_log_state, RIST_LOG_INFO, RIST_LOG_QUIET,
      RIST_LOG_WARN]

/-- C1 (amended): logging configuration is process-global, shared by all
contexts. `set_loglevel` replaces the single static loglevel and `msg`
thereafter filters the messages of every context by it; `rist_set_stats_fd`
replaces the single static stats_fd exactly when `fd > -1`; the first
`rist_set_stats_socket` with a nonzero port installs the single static
stats socket used for all contexts. -/
theorem c1_global_logging (st : LogState) (lvl fd port connect_result : Int)
    (server_ctx client_ctx level : Int) (tv : timeval) (content : String) :
    ((msg (set_loglevel lvl st) server_ctx client_ctx level tv content).1 = []
      ↔ lvl < level) ∧
    (rist_set_stats_fd fd st).2.stats_fd =
      (if fd > -1 then fd else st.stats_fd) ∧
    (rist_set_stats_socket port connect_result st).2.stats_socket =
      (if port = 0 then st.stats_socket
       else if st.stats_socket = 0 then connect_result
       else st.stats_socket) := by
  refine ⟨?_, ?_, ?_⟩
  · have hl : (set_loglevel lvl st).loglevel = lvl := rfl
    unfold msg
    rw [hl]
    by_cases h : level > lvl
    · simp [h]
    · simp [h]
  · unfold rist_set_stats_fd
    split <;> simp [*]
  · unfold rist_set_stats_socket
    split
    · simp [*]
    · split <;> simp [*]

/-- C8: a `msg` call whose level is strictly greater than the configured
loglevel writes nothing and leaves the state untouched, and the default
loglevel before any `set_loglevel` call is RIST_LOG_WARN. -/
theorem c8_msg_filtering (st : LogState) (server_ctx client_ctx level : Int)
    (tv : timeval) (content : String) (h : st.loglevel < level) :
    msg st server_ctx client_ctx level tv content = ([], st) ∧
    initial_log_state.loglevel = RIST_LOG_WARN := by
  constructor
  · unfold msg
    simp [h]
  · rfl

theorem c8_msg_filtering_witness :
    initial_log_state.loglevel < RIST_LOG_DEBUG ∧
    msg initial_log_state 1 2 RIST_LOG_DEBUG ⟨5, 6⟩ "hello" =
      ([], initial_log_state) :=
  ⟨by decide,
   (c8_msg_filtering initial_log_state 1 2 RIST_LOG_DEBUG ⟨5, 6⟩ "hello"
      (by decide)).1⟩

/-- C10: `rist_set_stats_socket` returns -1 exactly when the port is 0 and 0
otherwise; a zero port leaves the state untouched; once the stats socket is
nonzero every later call leaves it unchanged; the first nonzero-port call on
a zero socket installs the connect result; after a first call that installed
a nonzero socket, any later call with any arguments leaves the state
unchanged. `rist_set_stats_fd` always returns 0 and leaves the fd unchanged
when `fd ≤ -1`. -/
theorem c10_stats_setters (st : LogState) (port connect_result fd : Int) :
    ((rist_set_stats_socket port connect_result st).1 =
      (if port = 0 then -1 else 0)) ∧
    (port = 0 → (rist_set_stats_socket port connect_result st).2 = st) ∧
    (st.stats_socket ≠ 0 →
      (rist_set_stats_socket port connect_result st).2 = st) ∧
    (port ≠ 0 → st.stats_socket = 0 →
      (rist_set_stats_socket port connect_result st).2.stats_socket =
        connect_result) ∧
    (port ≠ 0 → st.stats_socket = 0 → connect_result ≠ 0 →
      ∀ port2 connect_result2,
        (rist_set_stats_socket port2 connect_result2
            (rist_set_stats_socket port connect_result st).2).2 =
          (rist_set_stats_socket port connect_result st).2) ∧
    ((rist_set_stats_fd fd st).1 = 0) ∧
    (fd ≤ -1 → (rist_set_stats_fd fd st).2 = st) := by
  refine ⟨?_, ?_, ?_, ?_, ?_, ?_, ?_⟩
  · unfold rist_set_stats_socket
    split
    · simp
    · split <;> simp
  · intro h
    unfold rist_set_stats_socket
    simp [h]
  · intro h
    unfold rist_set_stats_socket
    rcases eq_or_ne port 0 with h0 | h0 <;> simp [h0, h]
  · intro hp hs
    unfold rist_set_stats_socket
    simp [hp, hs]
  · intro hp hs hc port2 connect_result2
    have h1 : (rist_set_stats_socket port connect_result st).2 =
        { st with stats_socket := connect_result } := by
      unfold rist_set_stats_socket
      rw [if_neg hp, if_pos hs]
    rw [h1]
    unfold rist_set_stats_socket
    rcases eq_or_ne port2 0 with h2 | h2
    · simp [h2]
    · simp [h2, hc]
  · unfold rist_set_stats_fd
    split <;> rfl
  · intro h
    unfold rist_set_stats_fd
    split
    · omega
    · rfl

theorem c10_stats_setters_witness :
    (5 : Int) ≠ 0 ∧ initial_log_state.stats_socket = 0 ∧ (3 : Int) ≠ 0 ∧
    (rist_set_stats_socket 9 4
        (rist_set_stats_socket 5 3 initial_log_state).2).2 =
      (rist_set_stats_socket 5 3 initial_log_state).2 ∧
    (-2 : Int) ≤ -1 ∧
    (rist_set_stats_fd (-2) initial_log_state).2 = initial_log_state :=
  ⟨by decide, by decide, by decide,
   (c10_stats_setters initial_log_state 5 3 (-2)).2.2.2.2.1 (by decide)
     (by decide) (by decide) 9 4,
   by decide,
   (c10_stats_setters initial_log_state 5 3 (-2)).2.2.2.2.2.2 (by decide)⟩

/-- C2: every `rist_receiver_data_read` result is success with one complete
data block taken whole from the fifo, TimedOut with the fifo empty, or
NotStarted; under the fifo invariant (every queued block's stored length is
its payload's length) the returned block is complete, never partial. -/
theorem c2_data_read (ctx : rist_receiver) (timeout : Nat)
    (hwf : ∀ b ∈ ctx.fifo, b.payload_len = b.payload.length) :
    ((rist_receiver_data_read ctx timeout).1 = DataReadResult.notStarted ∧
      ctx.started = false) ∨
    ((rist_receiver_data_read ctx timeout).1 = DataReadResult.timedOut ∧
      ctx.fifo = []) ∨
    (∃ b, (rist_receiver_data_read ctx timeout).1 = DataReadResult.ok b ∧
      b ∈ ctx.fifo ∧ b.payload_len = b.payload.length) := by
  unfold rist_receiver_data_read
  rcases hst : ctx.started with _ | _
  · left
    simp
  · right
    rcases hq : ctx.fifo with _ | ⟨b, rest⟩
    · left
      simp
    · right
      refine ⟨b, by simp, List.mem_cons_self b rest, ?_⟩
      exact hwf b (by rw [hq]; exact List.mem_cons_self b rest)

theorem c2_data_read_witness :
    (∀ b ∈ (⟨rist_profile.main, true, true,
        [⟨[10, 20], 2, 0, 0, 0, 0, 0, 0⟩]⟩ : rist_receiver).fifo,
      b.payload_len = b.payload.length) ∧
    (((rist_receiver_data_read ⟨rist_profile.main, true, true,
          [⟨[10, 20], 2, 0, 0, 0, 0, 0, 0⟩]⟩ 5).1 =
        DataReadResult.notStarted ∧
      (⟨rist_profile.main, true, true,
          [⟨[10, 20], 2, 0, 0, 0, 0, 0, 0⟩]⟩ : rist_receiver).started =
        false) ∨
    ((rist_receiver_data_read ⟨rist_profile.main, true, true,
          [⟨[10, 20], 2, 0, 0, 0, 0, 0, 0⟩]⟩ 5).1 =
        DataReadResult.timedOut ∧
      (⟨rist_profile.main, true, true,
          [⟨[10, 20], 2, 0, 0, 0, 0, 0, 0⟩]⟩ : rist_receiver).fifo = []) ∨
    (∃ b, (rist_receiver_data_read ⟨rist_profile.main, true, true,
          [⟨[10, 20], 2, 0, 0, 0, 0, 0, 0⟩]⟩ 5).1 = DataReadResult.ok b ∧
      b ∈ (⟨rist_profile.main, true, true,
          [⟨[10, 20], 2, 0, 0, 0, 0, 0, 0⟩]⟩ : rist_receiver).fifo ∧
      b.payload_len = b.payload.length)) :=
  ⟨by decide,
   c2_data_read ⟨rist_profile.main, true, true,
     [⟨[10, 20], 2, 0, 0, 0, 0, 0, 0⟩]⟩ 5 (by decide)⟩

/-- C4: in the simple profile cb_recv's output matching ignores virtual
destination ports: a block is forwarded to output `i` exactly when that
output was opened (a parsed udp config and a positive socket), whatever
`virt_dst_port` the block carries, and main() does not enable the
out-of-band channel. -/
theorem c4_simple_profile (co : rist_callback_object) (b : rist_data_block)
    (i : Fin MAX_OUTPUT_COUNT) :
    (cb_recv_sends rist_profile.simple co b i =
      ((co.udp_config i).isSome && decide (0 < co.mpeg i))) ∧
    (∀ v, cb_recv_sends rist_profile.simple co
        { b with virt_dst_port := v } i =
      cb_recv_sends rist_profile.simple co b i) ∧
    oob_enabled rist_profile.simple = false := by
  refine ⟨?_, ?_, by decide⟩
  · unfold cb_recv_sends
    rcases h : co.udp_config i with _ | cfg
    · simp
    · simp [output_match]
  · intro v
    unfold cb_recv_sends
    rcases h : co.udp_config i with _ | cfg
    · rfl
    · simp [output_match]

/-- C5: sender and receiver start return exactly one of ok, InvalidConfig or
AlreadyStarted; an InvalidConfig result leaves the context unchanged, and a
successful start changes nothing but the started flag. -/
theorem c5_start (s : rist_sender) (r : rist_receiver) :
    ((rist_sender_start s).1 = StartResult.ok ∨
      (rist_sender_start s).1 = StartResult.invalidConfig ∨
      (rist_sender_start s).1 = StartResult.alreadyStarted) ∧
    ((rist_sender_start s).1 = StartResult.invalidConfig →
      (rist_sender_start s).2 = s) ∧
    ((rist_sender_start s).1 = StartResult.ok →
      (rist_sender_start s).2 = { s with started := true }) ∧
    ((rist_receiver_start r).1 = StartResult.ok ∨
      (rist_receiver_start r).1 = StartResult.invalidConfig ∨
      (rist_receiver_start r).1 = StartResult.alreadyStarted) ∧
    ((rist_receiver_start r).1 = StartResult.invalidConfig →
      (rist_receiver_start r).2 = r) ∧
    ((rist_receiver_start r).1 = StartResult.ok →
      (rist_receiver_start r).2 = { r with started := true }) := by
  unfold rist_sender_start rist_receiver_start
  rcases hs : s.config_valid with _ | _ <;>
    rcases hr : r.config_valid with _ | _ <;>
      rcases hs2 : s.started with _ | _ <;>
        rcases hr2 : r.started with _ | _ <;>
          simp

theorem c5_start_witness :
    ((rist_sender_start ⟨rist_profile.main, 1, 0, 0, false, false⟩).1 =
      StartResult.invalidConfig) ∧
    (rist_sender_start ⟨rist_profile.main, 1, 0, 0, false, false⟩).2 =
      ⟨rist_profile.main, 1, 0, 0, false, false⟩ :=
  ⟨by decide,
   (c5_start ⟨rist_profile.main, 1, 0, 0, false, false⟩
       ⟨rist_profile.main, false, true, []⟩).2.1 (by decide)⟩

/-- C6: `rist_sender_data_write` stamps the submitted block's sequence with
the current next_seq, advances next_seq by one in the 32-bit sequence space
(so by exactly one whenever no wraparound occurs), and fills flow_id and
ts_ntp from the context exactly when the caller passed them as zero. -/
theorem c6_data_write (ctx : rist_sender) (b : rist_data_block)
    (now_ntp : Nat) :
    (rist_sender_data_write ctx b now_ntp).2.1.seq = ctx.next_seq ∧
    (rist_sender_data_write ctx b now_ntp).2.2.next_seq =
      (ctx.next_seq + 1) % 2 ^ 32 ∧
    (rist_sender_data_write ctx b now_ntp).2.1.flow_id =
      (if b.flow_id = 0 then ctx.flow_id else b.flow_id) ∧
    (rist_sender_data_write ctx b now_ntp).2.1.ts_ntp =
      (if b.ts_ntp = 0 then now_ntp else b.ts_ntp) ∧
    (ctx.next_seq + 1 < 2 ^ 32 →
      (rist_sender_data_write ctx b now_ntp).2.2.next_seq =
        ctx.next_seq + 1) := by
  exact ⟨rfl, rfl, rfl, rfl, fun h => Nat.mod_eq_of_lt h⟩

theorem c6_data_write_witness :
    (⟨rist_profile.main, 9, 0, 41, true, true⟩ : rist_sender).next_seq + 1 <
      2 ^ 32 ∧
    (rist_sender_data_write ⟨rist_profile.main, 9, 0, 41, true, true⟩
        ⟨[1], 1, 0, 0, 0, 0, 0, 0⟩ 1000).2.2.next_seq = 41 + 1 :=
  ⟨by decide,
   (c6_data_write ⟨rist_profile.main, 9, 0, 41, true, true⟩
       ⟨[1], 1, 0, 0, 0, 0, 0, 0⟩ 1000).2.2.2.2 (by decide)⟩

/-- C7: a sender created with flow_id 0 takes the library-generated flow id
and a sender created with a nonzero flow_id keeps it; in both cases
`rist_sender_flow_id_get` succeeds and retrieves exactly that value. -/
theorem c7_flow_id (profile : rist_profile) (flow_id : Nat) (log_level : Int)
    (generated_flow_id : Nat) :
    (flow_id = 0 →
      rist_sender_flow_id_get
          (rist_sender_create profile flow_id log_level generated_flow_id) =
        (0, generated_flow_id)) ∧
    (flow_id ≠ 0 →
      rist_sender_flow_id_get
          (rist_sender_create profile flow_id log_level generated_flow_id) =
        (0, flow_id)) := by
  constructor
  · intro h
    unfold rist_sender_flow_id_get rist_sender_create
    simp [h]
  · intro h
    unfold rist_sender_flow_id_get rist_sender_create
    simp [h]

theorem c7_flow_id_witness :
    ((0 : Nat) = 0 ∧
      rist_sender_flow_id_get
          (rist_sender_create rist_profile.main 0 0 777) = (0, 777)) ∧
    ((5 : Nat) ≠ 0 ∧
      rist_sender_flow_id_get
          (rist_sender_create rist_profile.main 5 0 777) = (0, 5)) :=
  ⟨⟨rfl, (c7_flow_id rist_profile.main 0 0 777).1 rfl⟩,
   ⟨by decide, (c7_flow_id rist_profile.main 5 0 777).2 (by decide)⟩⟩

lemma land_255 (n : Nat) : n &&& 255 = n % 256 := by
  have := Nat.and_pow_two_sub_one_eq_mod n 8
  simpa using this

lemma land_127 (n : Nat) : n &&& 127 = n % 128 := by
  have := Nat.and_pow_two_sub_one_eq_mod n 7
  simpa using this

lemma land_15 (n : Nat) : n &&& 15 = n % 16 := by
  have := Nat.and_pow_two_sub_one_eq_mod n 4
  simpa using this

lemma land_1 (n : Nat) : n &&& 1 = n % 2 := by
  have := Nat.and_pow_two_sub_one_eq_mod n 1
  simpa using this

/-- C3: the packet cb_recv sends on an RTP-enabled output is the block
payload prefixed by a 12-byte RTP header with version 2, padding 0,
extension 0, CSRC count 0, a 7-bit payload type, and the sequence number,
timestamp and SSRC stored big-endian, the SSRC being the block's flow_id. -/
theorem c3_rtp_header (cfg : rist_udp_config) (cur_seqnum : Nat)
    (b : rist_data_block) (hflow : b.flow_id < 2 ^ 32)
    (hcur : cur_seqnum < 2 ^ 16) :
    (cb_recv_rtp_packet cfg cur_seqnum b).length = 12 + b.payload.length ∧
    (cb_recv_rtp_packet cfg cur_seqnum b).drop 12 = b.payload ∧
    (cb_recv_rtp_packet cfg cur_seqnum b).getD 0 0 >>> 6 = 2 ∧
    ((cb_recv_rtp_packet cfg cur_seqnum b).getD 0 0 >>> 5) &&& 1 = 0 ∧
    ((cb_recv_rtp_packet cfg cur_seqnum b).getD 0 0 >>> 4) &&& 1 = 0 ∧
    (cb_recv_rtp_packet cfg cur_seqnum b).getD 0 0 &&& 15 = 0 ∧
    (cb_recv_rtp_packet cfg cur_seqnum b).getD 1 0 < 2 ^ 7 ∧
    (cb_recv_rtp_packet cfg cur_seqnum b).getD 1 0 =
      (if cfg.rtp_ptype ≠ 0 then cfg.rtp_ptype else 0x21) &&& 0x7f ∧
    (cb_recv_rtp_packet cfg cur_seqnum b).getD 2 0 * 2 ^ 8 +
      (cb_recv_rtp_packet cfg cur_seqnum b).getD 3 0 =
      (if cfg.rtp_sequence then b.seq % 2 ^ 16 else cur_seqnum) ∧
    (cb_recv_rtp_packet cfg cur_seqnum b).getD 4 0 * 2 ^ 24 +
      (cb_recv_rtp_packet cfg cur_seqnum b).getD 5 0 * 2 ^ 16 +
      (cb_recv_rtp_packet cfg cur_seqnum b).getD 6 0 * 2 ^ 8 +
      (cb_recv_rtp_packet cfg cur_seqnum b).getD 7 0 =
      risttools_convertNTPtoRTP b.ts_ntp ∧
    (cb_recv_rtp_packet cfg cur_seqnum b).getD 8 0 * 2 ^ 24 +
      (cb_recv_rtp_packet cfg cur_seqnum b).getD 9 0 * 2 ^ 16 +
      (cb_recv_rtp_packet cfg cur_seqnum b).getD 10 0 * 2 ^ 8 +
      (cb_recv_rtp_packet cfg cur_seqnum b).getD 11 0 = b.flow_id := by
  have hseq : (if cfg.rtp_sequence then b.seq % 2 ^ 16 else cur_seqnum) <
      2 ^ 16 := by
    split
    · exact Nat.mod_lt _ (by norm_num)
    · exact hcur
  have hts : risttools_convertNTPtoRTP b.ts_ntp < 2 ^ 32 := by
    unfold risttools_convertNTPtoRTP
    rw [Nat.shiftRight_eq_div_pow]
    have h1 : b.ts_ntp * 90000 % 2 ^ 64 < 2 ^ 64 :=
      Nat.mod_lt _ (by norm_num)
    omega
  have e0 : (cb_recv_rtp_packet cfg cur_seqnum b).getD 0 0 = 128 := rfl
  have e1 : (cb_recv_rtp_packet cfg cur_seqnum b).getD 1 0 =
      (if cfg.rtp_ptype ≠ 0 then cfg.rtp_ptype else 33) &&& 127 := rfl
  have e2 : (cb_recv_rtp_packet cfg cur_seqnum b).getD 2 0 =
      ((if cfg.rtp_sequence then b.seq % 2 ^ 16 else cur_seqnum) >>> 8) %
        256 := rfl
  have e3 : (cb_recv_rtp_packet cfg cur_seqnum b).getD 3 0 =
      (if cfg.rtp_sequence then b.seq % 2 ^ 16 else cur_seqnum) &&& 255 := rfl
  have e4 : (cb_recv_rtp_packet cfg cur_seqnum b).getD 4 0 =
      (risttools_convertNTPtoRTP b.ts_ntp >>> 24) &&& 255 := rfl
  have e5 : (cb_recv_rtp_packet cfg cur_seqnum b).getD 5 0 =
      (risttools_convertNTPtoRTP b.ts_ntp >>> 16) &&& 255 := rfl
  have e6 : (cb_recv_rtp_packet cfg cur_seqnum b).getD 6 0 =
      (risttools_convertNTPtoRTP b.ts_ntp >>> 8) &&& 255 := rfl
  have e7 : (cb_recv_rtp_packet cfg cur_seqnum b).getD 7 0 =
      risttools_convertNTPtoRTP b.ts_ntp &&& 255 := rfl
  have e8 : (cb_recv_rtp_packet cfg cur_seqnum b).getD 8 0 =
      (b.flow_id >>> 24) &&& 255 := rfl
  have e9 : (cb_recv_rtp_packet cfg cur_seqnum b).getD 9 0 =
      (b.flow_id >>> 16) &&& 255 := rfl
  have e10 : (cb_recv_rtp_packet cfg cur_seqnum b).getD 10 0 =
      (b.flow_id >>> 8) &&& 255 := rfl
  have e11 : (cb_recv_rtp_packet cfg cur_seqnum b).getD 11 0 =
      b.flow_id &&& 255 := rfl
  refine ⟨by simp [cb_recv_rtp_packet, risttools_rtp_set_hdr]; omega, rfl,
    ?_, ?_, ?_, ?_, ?_, ?_, ?_, ?_, ?_⟩
  · rw [e0]
    decide
  · rw [e0]
    decide
  · rw [e0]
    decide
  · rw [e0]
    decide
  · rw [e1, land_127]
    exact Nat.mod_lt _ (by norm_num)
  · rw [e1]
  · rw [e2, e3, land_255, Nat.shiftRight_eq_div_pow]
    omega
  · rw [e4, e5, e6, e7, land_255, land_255, land_255, land_255,
      Nat.shiftRight_eq_div_pow, Nat.shiftRight_eq_div_pow,
      Nat.shiftRight_eq_div_pow]
    omega
  · rw [e8, e9, e10, e11, land_255, land_255, land_255, land_255,
      Nat.shiftRight_eq_div_pow, Nat.shiftRight_eq_div_pow,
      Nat.shiftRight_eq_div_pow]
    omega

theorem c3_rtp_header_witness :
    (42 : Nat) < 2 ^ 32 ∧ (7 : Nat) < 2 ^ 16 ∧
    (cb_recv_rtp_packet ⟨0, true, 0, false⟩ 7
        ⟨[1, 2, 3], 3, 12345, 0, 0, 42, 99, 0⟩).getD 8 0 * 2 ^ 24 +
      (cb_recv_rtp_packet ⟨0, true, 0, false⟩ 7
        ⟨[1, 2, 3], 3, 12345, 0, 0, 42, 99, 0⟩).getD 9 0 * 2 ^ 16 +
      (cb_recv_rtp_packet ⟨0, true, 0, false⟩ 7
        ⟨[1, 2, 3], 3, 12345, 0, 0, 42, 99, 0⟩).getD 10 0 * 2 ^ 8 +
      (cb_recv_rtp_packet ⟨0, true, 0, false⟩ 7
        ⟨[1, 2, 3], 3, 12345, 0, 0, 42, 99, 0⟩).getD 11 0 =
      (⟨[1, 2, 3], 3, 12345, 0, 0, 42, 99, 0⟩ : rist_data_block).flow_id :=
  ⟨by decide, by decide,
   (c3_rtp_header ⟨0, true, 0, false⟩ 7 ⟨[1, 2, 3], 3, 12345, 0, 0, 42, 99, 0⟩
      (by decide) (by decide)).2.2.2.2.2.2.2.2.2.2⟩

/-! ### Lemmas about the cumulative stats list -/

/-- The cumulative node for a flow, a calloc-zeroed node standing in when the
flow is absent from the list. -/
def cum_node (l : List ristreceiver_flow_cumulative_stats) (fid : Nat) :
    ristreceiver_flow_cumulative_stats :=
  (lookup_flow l fid).getD
    { flow_id := fid, received := 0, recovered := 0, lost := 0 }

lemma lookup_flow_eq (l : List ristreceiver_flow_cumulative_stats) (fid : Nat)
    (n : ristreceiver_flow_cumulative_stats)
    (h : lookup_flow l fid = some n) : n.flow_id = fid := by
  have := List.find?_some h
  simpa using this

lemma cum_node_update (l : List ristreceiver_flow_cumulative_stats)
    (fid r re lo : Nat) :
    cum_node (cb_stats_update l fid r re lo) fid =
      { flow_id := fid,
        received := ((cum_node l fid).received + r) % 2 ^ 64,
        recovered := ((cum_node l fid).recovered + re) % 2 ^ 64,
        lost := ((cum_node l fid).lost + lo) % 2 ^ 64 } := by
  induction l with
  | nil => simp [cum_node, cb_stats_update, lookup_flow]
  | cons n rest ih =>
    by_cases h : n.flow_id = fid
    · simp [cum_node, cb_stats_update, lookup_flow, h, List.find?_cons_of_pos]
    · simp only [cb_stats_update, if_neg h]
      unfold cum_node lookup_flow at ih ⊢
      rw [List.find?_cons_of_neg _ (by simp [h]),
        List.find?_cons_of_neg _ (by simp [h])]
      exact ih

lemma lookup_flow_update_ne (l : List ristreceiver_flow_cumulative_stats)
    (fid g r re lo : Nat) (h : g ≠ fid) :
    lookup_flow (cb_stats_update l fid r re lo) g = lookup_flow l g := by
  induction l with
  | nil =>
    unfold cb_stats_update lookup_flow
    rw [List.find?_cons_of_neg _ (by simp [Ne.symm h])]
  | cons n rest ih =>
    by_cases hn : n.flow_id = fid
    · unfold cb_stats_update lookup_flow
      rw [if_pos hn]
      by_cases hg : n.flow_id = g
      · exact absurd (hg.symm.trans hn) h
      · rw [List.find?_cons_of_neg _ (by simp [hg]),
          List.find?_cons_of_neg _ (by simp [hg])]
    · unfold cb_stats_update lookup_flow
      rw [if_neg hn]
      by_cases hg : n.flow_id = g
      · rw [List.find?_cons_of_pos _ (by simp [hg]),
          List.find?_cons_of_pos _ (by simp [hg])]
      · rw [List.find?_cons_of_neg _ (by simp [hg]),
          List.find?_cons_of_neg _ (by simp [hg])]
        exact ih

lemma cum_node_cb_stats (l : List ristreceiver_flow_cumulative_stats)
    (c : rist_stats) (fid : Nat) :
    cum_node (cb_stats l c) fid =
      (if c.stats_type = rist_stats_type.receiverFlow ∧ c.flow_id = fid then
        { flow_id := fid,
          received := ((cum_node l fid).received + c.received) % 2 ^ 64,
          recovered := ((cum_node l fid).recovered + c.recovered) % 2 ^ 64,
          lost := ((cum_node l fid).lost + c.lost) % 2 ^ 64 }
       else cum_node l fid) := by
  unfold cb_stats
  by_cases ht : c.stats_type = rist_stats_type.receiverFlow
  · rw [if_pos ht]
    by_cases hf : c.flow_id = fid
    · subst hf
      rw [cum_node_update, if_pos ⟨ht, rfl⟩]
    · rw [if_neg (by tauto)]
      unfold cum_node
      rw [lookup_flow_update_ne _ _ _ _ _ _ (fun he => hf he.symm)]
  · rw [if_neg ht, if_neg (by tauto)]

lemma interval_sum_cons (f : rist_stats → Nat) (c : rist_stats)
    (cs : List rist_stats) (fid : Nat) :
    interval_sum f (c :: cs) fid =
      (if c.stats_type = rist_stats_type.receiverFlow ∧ c.flow_id = fid then
        f c else 0) + interval_sum f cs fid := by
  unfold interval_sum
  by_cases h : c.stats_type = rist_stats_type.receiverFlow ∧ c.flow_id = fid
  · rw [List.filter_cons_of_pos (by simpa using h), if_pos h]
    simp
  · rw [List.filter_cons_of_neg (by simpa using h), if_neg h]
    simp

lemma cum_node_foldl (cs : List rist_stats) :
    ∀ (l : List ristreceiver_flow_cumulative_stats) (fid : Nat),
    (cum_node (cs.foldl cb_stats l) fid).received % 2 ^ 64 =
      ((cum_node l fid).received + interval_sum rist_stats.received cs fid) %
        2 ^ 64 ∧
    (cum_node (cs.foldl cb_stats l) fid).recovered % 2 ^ 64 =
      ((cum_node l fid).recovered + interval_sum rist_stats.recovered cs fid) %
        2 ^ 64 ∧
    (cum_node (cs.foldl cb_stats l) fid).lost % 2 ^ 64 =
      ((cum_node l fid).lost + interval_sum rist_stats.lost cs fid) %
        2 ^ 64 := by
  induction cs with
  | nil =>
    intro l fid
    simp [interval_sum]
  | cons c cs ih =>
    intro l fid
    have hrest := ih (cb_stats l c) fid
    have hstep := cum_node_cb_stats l c fid
    have hfold : (c :: cs).foldl cb_stats l = cs.foldl cb_stats (cb_stats l c) :=
      rfl
    rw [hfold, interval_sum_cons, interval_sum_cons, interval_sum_cons]
    rcases hrest with ⟨h1, h2, h3⟩
    rw [h1, h2, h3, hstep]
    by_cases h : c.stats_type = rist_stats_type.receiverFlow ∧ c.flow_id = fid
    · rw [if_pos h, if_pos h, if_pos h, if_pos h]
      refine ⟨by simp; omega, by simp; omega, by simp; omega⟩
    · rw [if_neg h, if_neg h, if_neg h, if_neg h]
      omega

lemma counters_lt_cb_stats_update (fid r re lo : Nat) :
    ∀ (l : List ristreceiver_flow_cumulative_stats),
    (∀ n ∈ l, n.received < 2 ^ 64 ∧ n.recovered < 2 ^ 64 ∧
      n.lost < 2 ^ 64) →
    ∀ n ∈ cb_stats_update l fid r re lo,
      n.received < 2 ^ 64 ∧ n.recovered < 2 ^ 64 ∧ n.lost < 2 ^ 64 := by
  intro l
  induction l with
  | nil =>
    intro _ n hn
    simp only [cb_stats_update, List.mem_singleton] at hn
    subst hn
    exact ⟨Nat.mod_lt _ (by norm_num), Nat.mod_lt _ (by norm_num),
      Nat.mod_lt _ (by norm_num)⟩
  | cons m rest ih =>
    intro h n hn
    by_cases hm : m.flow_id = fid
    · unfold cb_stats_update at hn
      rw [if_pos hm] at hn
      rcases List.mem_cons.mp hn with hn | hn
      · subst hn
        exact ⟨Nat.mod_lt _ (by norm_num), Nat.mod_lt _ (by norm_num),
          Nat.mod_lt _ (by norm_num)⟩
      · exact h n (List.mem_cons_of_mem m hn)
    · unfold cb_stats_update at hn
      rw [if_neg hm] at hn
      rcases List.mem_cons.mp hn with hn | hn
      · rw [hn]
        exact h m (List.mem_cons_self m rest)
      · exact ih (fun k hk => h k (List.mem_cons_of_mem m hk)) n hn

lemma counters_lt_cb_stats (c : rist_stats)
    (l : List ristreceiver_flow_cumulative_stats)
    (h : ∀ n ∈ l, n.received < 2 ^ 64 ∧ n.recovered < 2 ^ 64 ∧
      n.lost < 2 ^ 64) :
    ∀ n ∈ cb_stats l c,
      n.received < 2 ^ 64 ∧ n.recovered < 2 ^ 64 ∧ n.lost < 2 ^ 64 := by
  intro n hn
  unfold cb_stats at hn
  split at hn
  · exact counters_lt_cb_stats_update c.flow_id c.received c.recovered
      c.lost l h n hn
  · exact h n hn

lemma counters_lt_foldl (cs : List rist_stats) :
    ∀ (l : List ristreceiver_flow_cumulative_stats),
    (∀ n ∈ l, n.received < 2 ^ 64 ∧ n.recovered < 2 ^ 64 ∧
      n.lost < 2 ^ 64) →
    ∀ n ∈ cs.foldl cb_stats l,
      n.received < 2 ^ 64 ∧ n.recovered < 2 ^ 64 ∧ n.lost < 2 ^ 64 := by
  induction cs with
  | nil => intro l h n hn; exact h n hn
  | cons c cs ih =>
    intro l h n hn
    exact ih (cb_stats l c) (counters_lt_cb_stats c l h) n hn

lemma map_flow_id_update (l : List ristreceiver_flow_cumulative_stats)
    (fid r re lo : Nat) :
    (cb_stats_update l fid r re lo).map
        ristreceiver_flow_cumulative_stats.flow_id =
      (if fid ∈ l.map ristreceiver_flow_cumulative_stats.flow_id then
        l.map ristreceiver_flow_cumulative_stats.flow_id
       else l.map ristreceiver_flow_cumulative_stats.flow_id ++ [fid]) := by
  induction l with
  | nil => simp [cb_stats_update]
  | cons n rest ih =>
    by_cases h : n.flow_id = fid
    · simp [cb_stats_update, h]
    · simp only [cb_stats_update, if_neg h, List.map_cons, List.mem_cons,
        List.cons_append]
      rw [ih]
      have hne : ¬ fid = n.flow_id := fun he => h he.symm
      by_cases hm : fid ∈ rest.map ristreceiver_flow_cumulative_stats.flow_id
      · rw [if_pos hm, if_pos (by tauto)]
      · rw [if_neg hm, if_neg (by tauto)]

lemma nodup_cb_stats (l : List ristreceiver_flow_cumulative_stats)
    (c : rist_stats)
    (h : (l.map ristreceiver_flow_cumulative_stats.flow_id).Nodup) :
    ((cb_stats l c).map ristreceiver_flow_cumulative_stats.flow_id).Nodup := by
  unfold cb_stats
  split
  · rw [map_flow_id_update]
    split
    · exact h
    · rename_i hmem
      refine List.Nodup.append h (List.nodup_singleton _) ?_
      intro a ha hb
      simp only [List.mem_singleton] at hb
      subst hb
      exact hmem ha
  · exact h

lemma nodup_foldl_cb_stats (cs : List rist_stats) :
    ∀ (l : List ristreceiver_flow_cumulative_stats),
    (l.map ristreceiver_flow_cumulative_stats.flow_id).Nodup →
    ((cs.foldl cb_stats l).map
        ristreceiver_flow_cumulative_stats.flow_id).Nodup := by
  induction cs with
  | nil => intro l h; exact h
  | cons c cs ih =>
    intro l h
    exact ih (cb_stats l c) (nodup_cb_stats l c h)

/-- C9 counterexample: the cumulative counters are `uint64_t` and the `+=`
of cb_stats wraps modulo 2^64, so a cumulative counter does not always
equal the plain sum of the reported interval values: two receiver-flow
containers for flow 1 each reporting 2^63 received packets leave the node's
received counter at 0 while the sum of the interval values is 2^64. -/
theorem c9_counterexample :
    lookup_flow (stats_list_after
        [⟨rist_stats_type.receiverFlow, 1, 2 ^ 63, 0, 0⟩,
         ⟨rist_stats_type.receiverFlow, 1, 2 ^ 63, 0, 0⟩]) 1 =
      some ⟨1, 0, 0, 0⟩ ∧
    interval_sum rist_stats.received
        [⟨rist_stats_type.receiverFlow, 1, 2 ^ 63, 0, 0⟩,
         ⟨rist_stats_type.receiverFlow, 1, 2 ^ 63, 0, 0⟩] 1 = 2 ^ 64 ∧
    (0 : Nat) ≠ 2 ^ 64 := by
  refine ⟨by decide, by decide, by decide⟩

/-- C9 (amended): the tool's cumulative list never holds two nodes for one
flow_id; containers that are not receiver-flow stats leave it untouched; a
receiver-flow container touches no node of any other flow; and the node for
a flow carries the sums of all interval counters reported for it reduced
modulo 2^64, the wrapping uint64 arithmetic of the accumulation. -/
theorem c9_cumulative_stats (cs : List rist_stats) (fid : Nat) :
    ((stats_list_after cs).map
        ristreceiver_flow_cumulative_stats.flow_id).Nodup ∧
    (∀ (c : rist_stats) (l : List ristreceiver_flow_cumulative_stats),
      c.stats_type ≠ rist_stats_type.receiverFlow → cb_stats l c = l) ∧
    (∀ (c : rist_stats) (l : List ristreceiver_flow_cumulative_stats)
      (g : Nat), g ≠ c.flow_id → lookup_flow (cb_stats l c) g =
        lookup_flow l g) ∧
    (∀ n, lookup_flow (stats_list_after cs) fid = some n →
      n.flow_id = fid ∧
      n.received = interval_sum rist_stats.received cs fid % 2 ^ 64 ∧
      n.recovered = interval_sum rist_stats.recovered cs fid % 2 ^ 64 ∧
      n.lost = interval_sum rist_stats.lost cs fid % 2 ^ 64) := by
  refine ⟨?_, ?_, ?_, ?_⟩
  · exact nodup_foldl_cb_stats cs [] (by simp)
  · intro c l h
    unfold cb_stats
    rw [if_neg h]
  · intro c l g hg
    unfold cb_stats
    split
    · exact lookup_flow_update_ne l c.flow_id g c.received c.recovered
        c.lost hg
    · rfl
  · intro n h
    have hfid := lookup_flow_eq _ _ _ h
    have hcum := cum_node_foldl cs [] fid
    have hsl : List.foldl cb_stats [] cs = stats_list_after cs := rfl
    rw [hsl] at hcum
    have hn : cum_node (stats_list_after cs) fid = n := by
      unfold cum_node
      rw [h]
      rfl
    rw [hn] at hcum
    have hz : cum_node [] fid =
        { flow_id := fid, received := 0, recovered := 0, lost := 0 } := rfl
    rw [hz] at hcum
    have hf : (stats_list_after cs).find?
        (fun m => m.flow_id == fid) = some n := h
    have hmem : n ∈ List.foldl cb_stats [] cs :=
      List.mem_of_find?_eq_some hf
    obtain ⟨hw1, hw2, hw3⟩ := counters_lt_foldl cs [] (by simp) n hmem
    rcases hcum with ⟨h1, h2, h3⟩
    simp at h1 h2 h3
    exact ⟨hfid, by omega, by omega, by omega⟩

theorem c9_cumulative_stats_witness :
    (lookup_flow (stats_list_after
        [⟨rist_stats_type.receiverFlow, 5, 10, 1, 2⟩,
         ⟨rist_stats_type.senderPeer, 5, 100, 100, 100⟩,
         ⟨rist_stats_type.receiverFlow, 5, 7, 0, 3⟩]) 5 =
      some ⟨5, 17, 1, 5⟩) ∧
    ((stats_list_after
        [⟨rist_stats_type.receiverFlow, 5, 10, 1, 2⟩,
         ⟨rist_stats_type.senderPeer, 5, 100, 100, 100⟩,
         ⟨rist_stats_type.receiverFlow, 5, 7, 0, 3⟩]).map
      ristreceiver_flow_cumulative_stats.flow_id).Nodup ∧
    (17 = interval_sum rist_stats.received
        [⟨rist_stats_type.receiverFlow, 5, 10, 1, 2⟩,
         ⟨rist_stats_type.senderPeer, 5, 100, 100, 100⟩,
         ⟨rist_stats_type.receiverFlow, 5, 7, 0, 3⟩] 5 % 2 ^ 64) ∧
    (5 = interval_sum rist_stats.lost
        [⟨rist_stats_type.receiverFlow, 5, 10, 1, 2⟩,
         ⟨rist_stats_type.senderPeer, 5, 100, 100, 100⟩,
         ⟨rist_stats_type.receiverFlow, 5, 7, 0, 3⟩] 5 % 2 ^ 64) :=
  ⟨by decide,
   (c9_cumulative_stats
      [⟨rist_stats_type.receiverFlow, 5, 10, 1, 2⟩,
       ⟨rist_stats_type.senderPeer, 5, 100, 100, 100⟩,
       ⟨rist_stats_type.receiverFlow, 5, 7, 0, 3⟩] 5).1,
   ((c9_cumulative_stats
      [⟨rist_stats_type.receiverFlow, 5, 10, 1, 2⟩,
       ⟨rist_stats_type.senderPeer, 5, 100, 100, 100⟩,
       ⟨rist_stats_type.receiverFlow, 5, 7, 0, 3⟩] 5).2.2.2 ⟨5, 17, 1, 5⟩
      (by decide)).2.1,
   ((c9_cumulative_stats
      [⟨rist_stats_type.receiverFlow, 5, 10, 1, 2⟩,
       ⟨rist_stats_type.senderPeer, 5, 100, 100, 100⟩,
       ⟨rist_stats_type.receiverFlow, 5, 7, 0, 3⟩] 5).2.2.2 ⟨5, 17, 1, 5⟩
      (by decide)).2.2.2⟩

end Rist
